import Mathlib

/-!
# djChat — verification of the server models and the server list view

Shallow embedding of `src/djchat/server/models.py` and
`src/djchat/server/views.py`: the three model classes (`Category`,
`Server`, `Channel`), their `save` overrides, and the
`ServerListViewSet.list` query-parameter pipeline.

Conventions of the embedding:
* Query parameters are `Option String` (`none` = absent from the URL).
* Python truthiness of a string parameter (`if category:` treats both
  `None` and `""` as false) is `pyTruthy`.
* Python `int(...)` applied to a string (and Django's integer-field
  coercion inside `filter(id=...)`) is `pyInt`; it fails on anything
  that is not an optionally signed decimal literal (after stripping
  surrounding whitespace), returning `none` where Python raises
  `ValueError`.
* The database visible to the view is a `DB`: category rows and server
  rows.  A Django queryset is a Lean list; `filter` is `List.filter`
  and the slice `[:n]` is `List.take`, but two Django-specific
  behaviors are modelled on top of the plain list view: filtering a
  queryset after a slice raises an uncaught `TypeError`, and
  `annotate(num_members=Count("members"))` placed after
  `filter(members=user_id)` reuses the membership join, so it counts
  only the membership rows matching `user_id` instead of the whole
  member set.
* Exceptions are the error side of `Except`: `AuthenticationFailed`,
  `ValidationError detail`, and the unhandled Python-level failures of
  the `qty` slice (a `ValueError` from `int(qty)`, or Django's refusal
  of a negative slice bound).
-/

namespace DjChat

/-! ## Data model (`models.py`) -/

/-- A `Category` row.  `id` is `none` while the record has never been
persisted (Python `self.id` is `None`), `icon` is the stored file's
name (`none` for an empty `FileField`). -/
structure Category where
  id : Option Nat
  name : String
  description : Option String
  icon : Option String
deriving DecidableEq, Repr

/-- A `Server` row: owner and category foreign keys, and the
many-to-many `members` set as a list of user ids. -/
structure Server where
  id : Nat
  name : String
  ownerId : Nat
  categoryId : Nat
  description : Option String
  members : List Nat
deriving DecidableEq, Repr

/-- A `Channel` row. -/
structure Channel where
  id : Option Nat
  name : String
  ownerId : Nat
  topic : String
  serverId : Nat
deriving DecidableEq, Repr

/-! ## Python / Django primitives -/

/-- Python truthiness of an optional string parameter: `None` and the
empty string are falsy, every other string is truthy. -/
def pyTruthy : Option String → Bool
  | none => false
  | some s => !s.isEmpty

/-- Value of a nonempty all-digit character list. -/
def digitsToNat (l : List Char) : Option Nat :=
  if l ≠ [] ∧ l.all Char.isDigit then
    some (l.foldl (fun a c => a * 10 + (c.toNat - 48)) 0)
  else
    none

/-- Strip leading and trailing whitespace from a character list. -/
def pyStrip (l : List Char) : List Char :=
  ((l.dropWhile Char.isWhitespace).reverse.dropWhile Char.isWhitespace).reverse

/-- Python `int(s)` on a string: optional surrounding whitespace, an
optional sign, then decimal digits; `none` models the `ValueError`
raised on any other input (in particular on the empty string). -/
def pyInt (s : String) : Option Int :=
  match pyStrip s.toList with
  | '-' :: rest => (digitsToNat rest).map (fun n => -(n : Int))
  | '+' :: rest => (digitsToNat rest).map (fun n => (n : Int))
  | l => (digitsToNat l).map (fun n => (n : Int))

/-! ## The list endpoint (`views.py`) -/

/-- The data store the view reads: `Category` rows (persisted, so they
are expected to carry `some` id) and `Server` rows. -/
structure DB where
  categories : List Category
  servers : List Server
deriving DecidableEq, Repr

/-- An inbound list request: the five optional query parameters, the
authentication state, and the `user_id` a custom middleware attaches to
the request. -/
structure Req where
  category : Option String
  qty : Option String
  by_user : Option String
  by_serverid : Option String
  with_num_members : Option String
  isAuthenticated : Bool
  user_id : Nat
deriving DecidableEq, Repr

instance {ε α : Type} [DecidableEq ε] [DecidableEq α] : DecidableEq (Except ε α) :=
  fun a b =>
    match a, b with
    | .ok x, .ok y =>
      if h : x = y then .isTrue (by rw [h]) else .isFalse (fun hc => h (Except.ok.inj hc))
    | .error x, .error y =>
      if h : x = y then .isTrue (by rw [h]) else .isFalse (fun hc => h (Except.error.inj hc))
    | .ok _, .error _ => .isFalse (fun hc => Except.noConfusion hc)
    | .error _, .ok _ => .isFalse (fun hc => Except.noConfusion hc)

/-- The exceptions the `list` method can surface: `AuthenticationFailed`,
`ValidationError(detail)`, and the unhandled Python-level failures —
the `ValueError` of `int(qty)` and the rejection of a negative slice
bound (the `qty` line sits outside every `try`), and the `TypeError`
("Cannot filter a query once a slice has been taken.") Django raises
when `filter(id=by_serverid)` runs after the `[:int(qty)]` slice — a
`TypeError`, so the `except ValueError` does not catch it either. -/
inductive ListError where
  | authenticationFailed : ListError
  | validationError (detail : String) : ListError
  | pythonValueError (literal : String) : ListError
  | pythonNegativeIndexError : ListError
  | pythonTypeError : ListError
deriving DecidableEq, Repr

/-- A queryset row after the `with_num_members` step: the server plus
the `num_members` value attached by `annotate` (absent when the step
was skipped). -/
structure AnnServer where
  server : Server
  num_members : Option Nat
deriving DecidableEq, Repr

/-- A serialized server as produced by `ServerSerializer`:
`num_members` is emitted only when the serializer context asked for
it. -/
structure ServerOut where
  id : Nat
  name : String
  num_members : Option Nat
deriving DecidableEq, Repr

/-- Step `if category: ... filter(category__name=category)`: keep the
servers whose category row's `name` equals the parameter exactly. -/
def categoryStep (db : DB) (category : Option String) (qs : List Server) : List Server :=
  if pyTruthy category then
    qs.filter (fun s =>
      db.categories.any (fun k => k.id = some s.categoryId && k.name = category.getD ""))
  else
    qs

/-- Step `if by_user: ... filter(members=user_id)`. -/
def byUserStep (by_user : Bool) (user_id : Nat) (qs : List Server) : List Server :=
  if by_user then qs.filter (fun s => s.members.contains user_id) else qs

/-- Step `if with_num_members: ... annotate(num_members=Count("members"))`.
The annotation runs after the `by_user` step, and Django reuses the
membership join that `filter(members=user_id)` already introduced: when
`by_user` was applied, `Count("members")` counts only the membership
rows that survived that filter — the rows equal to `user_id` — not the
server's whole member set.  Without the `by_user` filter it is the full
member count.  When `with_num_members` is off, rows carry no
`num_members` value. -/
def numMembersStep (with_num_members by_user : Bool) (user_id : Nat)
    (qs : List Server) : List AnnServer :=
  if with_num_members then
    qs.map (fun s =>
      ⟨s, some (if by_user then s.members.count user_id else s.members.length)⟩)
  else
    qs.map (fun s => ⟨s, none⟩)

/-- Step `if qty: self.queryset = self.queryset[: int(qty)]`.  The line
sits outside every `try`, so a non-numeric `qty` surfaces Python's
`ValueError` unhandled, and a negative one is rejected by Django's
queryset slicing (also unhandled). -/
def qtyStep (qty : Option String) (qs : List AnnServer) : Except ListError (List AnnServer) :=
  if pyTruthy qty then
    match pyInt (qty.getD "") with
    | none => .error (.pythonValueError (qty.getD ""))
    | some n =>
      if n < 0 then .error .pythonNegativeIndexError
      else .ok (qs.take n.toNat)
  else
    .ok qs

/-- Step `if by_serverid: try: filter(id=by_serverid) ... except ValueError`.
`sliced` records whether the `[:int(qty)]` slice ran: Django's
`filter` first refuses to filter a sliced queryset with
`TypeError("Cannot filter a query once a slice has been taken.")` —
raised before any value coercion and not a `ValueError`, so the
`except` never catches it.  On an unsliced queryset, the integer
coercion of the id inside `filter` raises the `ValueError` the
`except` turns into `ValidationError("invalid")`, and an empty match
raises `ValidationError(f"Server with id {by_serverid} not found")`. -/
def byServeridStep (by_serverid : Option String) (sliced : Bool)
    (qs : List AnnServer) : Except ListError (List AnnServer) :=
  if pyTruthy by_serverid then
    if sliced then
      .error .pythonTypeError
    else
      match pyInt (by_serverid.getD "") with
      | none => .error (.validationError "invalid")
      | some sid =>
        let narrowed := qs.filter (fun a => (a.server.id : Int) = sid)
        if narrowed.isEmpty then
          .error (.validationError ("Server with id " ++ by_serverid.getD "" ++ " not found"))
        else
          .ok narrowed
  else
    .ok qs

/-- The serializer: `ServerSerializer(..., context={"num_members": with_num_members})`
emits the `num_members` field only when the context flag is set. -/
def serializeStep (with_num_members : Bool) (qs : List AnnServer) : List ServerOut :=
  qs.map (fun a =>
    { id := a.server.id
      name := a.server.name
      num_members := if with_num_members then a.num_members else none })

/-- The collection right before the `qty` slice: the initial queryset
narrowed by the `category` and `by_user` steps. -/
def preQtyCollection (db : DB) (category : Option String) (by_user : Bool)
    (user_id : Nat) (qs0 : List Server) : List Server :=
  byUserStep by_user user_id (categoryStep db category qs0)

/-- The body of `ServerListViewSet.list`, starting from the queryset
`qs0` read off `self.queryset`: parameter extraction, the
authentication gate, then the five steps in source order, ending in
serialization. -/
def serverList (qs0 : List Server) (db : DB) (req : Req) :
    Except ListError (List ServerOut) :=
  let by_user := req.by_user == some "true"
  let with_num_members := req.with_num_members == some "true"
  if (by_user || pyTruthy req.by_serverid) && !req.isAuthenticated then
    .error .authenticationFailed
  else
    match qtyStep req.qty (numMembersStep with_num_members by_user req.user_id
        (preQtyCollection db req.category by_user req.user_id qs0)) with
    | .error e => .error e
    | .ok sliced =>
      match byServeridStep req.by_serverid (pyTruthy req.qty) sliced with
      | .error e => .error e
      | .ok narrowed => .ok (serializeStep with_num_members narrowed)

/-- The class-level `queryset = Server.objects.all()` attribute: a lazy
query description, re-evaluated against the current store each time it
is used. -/
inductive QueryDesc where
  | allServers : QueryDesc
deriving DecidableEq, Repr

/-- Evaluate a lazy queryset against the store. -/
def QueryDesc.run : QueryDesc → DB → List Server
  | .allServers, db => db.servers

/-- The view class.  Its single shared datum is the class-level
`queryset` attribute. -/
structure ServerListViewSet where
  queryset : QueryDesc
deriving DecidableEq, Repr

/-- Dispatching one request: the framework instantiates a fresh view
object, whose `self.queryset` reads fall back to the class attribute.
Each `self.queryset = ...` assignment inside `list` writes the fresh
instance's own attribute dictionary, so the class-level attribute is
returned unchanged for the next request. -/
def ServerListViewSet.list (cls : ServerListViewSet) (db : DB) (req : Req) :
    Except ListError (List ServerOut) × ServerListViewSet :=
  (serverList (cls.queryset.run db) db req, cls)

/-- A two-server store used by the concrete witnesses: server 1 in
category `"A"` with member 10, server 2 in category `"B"` with no
members. -/
def dbA : DB :=
  { categories := [⟨some 1, "A", none, none⟩, ⟨some 2, "B", none, none⟩]
    servers := [⟨1, "s1", 10, 1, none, [10]⟩, ⟨2, "s2", 11, 2, none, []⟩] }

/-- A request with no query parameters, unauthenticated. -/
def req0 : Req :=
  { category := none, qty := none, by_user := none, by_serverid := none
    with_num_members := none, isAuthenticated := false, user_id := 10 }

/-! ## Model `save` methods (`models.py`) -/

/-- Fresh primary key for an inserted row: one more than the largest
key in use. -/
def freshId (ids : List (Option Nat)) : Nat :=
  (ids.foldl (fun m i => max m (i.getD 0)) 0) + 1

/-- `django.db.models.Model.save` for `Channel` rows: with a primary
key, update the matching row (inserting if the key is unused); without
one, insert under a fresh key. -/
def channelSuperSave (rows : List Channel) (c : Channel) : List Channel :=
  match c.id with
  | some i =>
    if rows.any (fun r => r.id = some i) then
      rows.map (fun r => if r.id = some i then c else r)
    else
      rows ++ [c]
  | none => rows ++ [{ c with id := some (freshId (rows.map (·.id))) }]

/-- `Channel.save`: lowercase `self.name`, then `super().save()`
unconditionally — on create and on update alike. -/
def Channel.save (rows : List Channel) (c : Channel) : List Channel :=
  channelSuperSave rows { c with name := c.name.toLower }

/-- File-storage state alongside the `Category` table: the set of
stored icon files, as a list of file names. -/
structure CategoryState where
  rows : List Category
  storage : List String
deriving DecidableEq, Repr

/-- `FieldFile.delete(save=False)`: remove the file from storage (a
no-op on an empty field); `save=False` means no model save is
triggered, so the rows are untouched. -/
def fieldFileDelete (storage : List String) (icon : Option String) : List String :=
  match icon with
  | none => storage
  | some f => storage.filter (fun g => g ≠ f)

/-- Writing a model instance's icon file to storage during
`super().save()`. -/
def storeFile (storage : List String) (icon : Option String) : List String :=
  match icon with
  | none => storage
  | some f => if storage.contains f then storage else f :: storage

/-- `django.db.models.Model.save` for `Category` rows: persist the row
(update under its key, or insert) and store its icon file. -/
def categorySuperSave (st : CategoryState) (c : Category) : CategoryState :=
  let rows :=
    match c.id with
    | some i =>
      if st.rows.any (fun r => r.id = some i) then
        st.rows.map (fun r => if r.id = some i then c else r)
      else
        st.rows ++ [c]
    | none => st.rows ++ [{ c with id := some (freshId (st.rows.map (·.id))) }]
  { rows := rows, storage := storeFile st.storage c.icon }

/-- `Category.save` exactly as written: everything — the
`get_object_or_404` lookup, the icon cleanup, **and the
`super().save()` call** — sits inside `if self.id:`.  A record with no
id therefore does nothing at all; a record whose id matches no row hits
the `Http404` of `get_object_or_404` (the `.error` case). -/
def Category.save (st : CategoryState) (c : Category) : Except Unit CategoryState :=
  match c.id with
  | none => .ok st
  | some i =>
    match st.rows.find? (fun r => r.id = some i) with
    | none => .error ()
    | some existing =>
      let storage :=
        if existing.icon ≠ c.icon then fieldFileDelete st.storage existing.icon
        else st.storage
      .ok (categorySuperSave { rows := st.rows, storage := storage } c)

/-! ## Helper lemmas -/

/-- A string is lowercase when lowercasing it changes nothing. -/
def lowercased (s : String) : Prop := s.toLower = s

theorem char_toNat_ofNat {n : Nat} (h : n.isValidChar) : (Char.ofNat n).toNat = n := by
  simp [Char.ofNat, h, Char.ofNatAux, Char.toNat, UInt32.toNat, BitVec.toNat_ofNatLt]

theorem char_toLower_eq (c : Char) :
    c.toLower = if 65 ≤ c.toNat ∧ c.toNat ≤ 90 then Char.ofNat (c.toNat + 32) else c := rfl

theorem char_toLower_idem (c : Char) : c.toLower.toLower = c.toLower := by
  by_cases h : 65 ≤ c.toNat ∧ c.toNat ≤ 90
  · have hv : Nat.isValidChar (c.toNat + 32) := Or.inl (by omega)
    have ht : (Char.ofNat (c.toNat + 32)).toNat = c.toNat + 32 := char_toNat_ofNat hv
    have h2 : ¬(65 ≤ (Char.ofNat (c.toNat + 32)).toNat ∧
        (Char.ofNat (c.toNat + 32)).toNat ≤ 90) := by
      rw [ht]; omega
    rw [char_toLower_eq c, if_pos h, char_toLower_eq, if_neg h2]
  · rw [char_toLower_eq c, if_neg h, char_toLower_eq c, if_neg h]

theorem string_toLower_idem (s : String) : lowercased s.toLower := by
  have h : (s.1.map Char.toLower).map Char.toLower = s.1.map Char.toLower := by
    rw [List.map_map]
    exact List.map_congr_left (fun c _ => char_toLower_idem c)
  show s.toLower.toLower = s.toLower
  simp only [String.toLower, String.map_eq]
  exact congrArg String.mk h

/-! ## Claims about the model `save` methods -/

/-- C5: `Channel.save` stores the lowercased name: every row of the
table after a save is either an untouched pre-existing row or carries
exactly `c.name.toLower`, and — since the lowercasing happens on every
save, create and update alike — a table whose names are all lowercase
stays that way. -/
theorem channelSuperSave_mem {rows : List Channel} {c r : Channel}
    (hr : r ∈ channelSuperSave rows c) : r ∈ rows ∨ r.name = c.name := by
  unfold channelSuperSave at hr
  split at hr
  · split at hr
    · obtain ⟨r0, hr0, hrq⟩ := List.mem_map.mp hr
      split at hrq
      · right; rw [← hrq]
      · left; rw [← hrq]; exact hr0
    · rcases List.mem_append.mp hr with h | h
      · exact .inl h
      · right; rw [List.mem_singleton.mp h]
  · rcases List.mem_append.mp hr with h | h
    · exact .inl h
    · right; rw [List.mem_singleton.mp h]

theorem channel_save_lowercases (rows : List Channel) (c : Channel)
    (hrows : ∀ r ∈ rows, lowercased r.name) :
    (∀ r ∈ Channel.save rows c, r ∈ rows ∨ r.name = c.name.toLower) ∧
    (∀ r ∈ Channel.save rows c, lowercased r.name) := by
  have key : ∀ r ∈ Channel.save rows c, r ∈ rows ∨ r.name = c.name.toLower := by
    intro r hr
    unfold Channel.save at hr
    exact channelSuperSave_mem hr
  refine ⟨key, fun r hr => ?_⟩
  rcases key r hr with hold | hnew
  · exact hrows r hold
  · rw [hnew]; exact string_toLower_idem c.name

/-- C5 witness: creating a channel named `"GeNeRaL"` in an empty table
stores the name `"general"`. -/
theorem channel_save_lowercases_witness :
    (∀ r ∈ Channel.save [] ⟨none, "GeNeRaL", 1, "t", 1⟩,
        r ∈ ([] : List Channel) ∨ r.name = "GeNeRaL".toLower) ∧
    (∀ r ∈ Channel.save [] ⟨none, "GeNeRaL", 1, "t", 1⟩, lowercased r.name) :=
  channel_save_lowercases [] ⟨none, "GeNeRaL", 1, "t", 1⟩ (by simp)

/-- C6: `Category.save` on a record with no identifier persists
nothing: the `super().save()` call is nested inside `if self.id:`, so
the table and the file storage come back exactly as they were. -/
theorem category_save_skips_new (st : CategoryState) (c : Category)
    (hid : c.id = none) : Category.save st c = .ok st := by
  unfold Category.save
  rw [hid]

/-- C6 witness: saving a fresh (id-less) `Category` into an empty store
leaves the store empty. -/
theorem category_save_skips_new_witness :
    Category.save ⟨[], []⟩ ⟨none, "gaming", none, some "g.png"⟩ = .ok ⟨[], []⟩ :=
  category_save_skips_new ⟨[], []⟩ ⟨none, "gaming", none, some "g.png"⟩ rfl

/-- C7: saving an existing `Category` whose incoming icon differs from
the stored one deletes the old file from storage (the rows are only
rewritten by the subsequent `super().save()`, never by the deletion —
`delete(save=False)`), then persists the new state: afterwards the old
file is gone from storage, the new file is present, and the row carries
the new data. -/
theorem category_save_replaces_icon (st : CategoryState) (c existing : Category)
    (i : Nat) (oldF newF : String)
    (hid : c.id = some i)
    (hfind : st.rows.find? (fun r => r.id = some i) = some existing)
    (hold : existing.icon = some oldF)
    (hnew : c.icon = some newF)
    (hne : oldF ≠ newF) :
    ∃ st', Category.save st c = .ok st' ∧
      oldF ∉ st'.storage ∧ newF ∈ st'.storage ∧
      st'.rows = st.rows.map (fun r => if r.id = some i then c else r) := by
  have hex : st.rows.any (fun r => r.id = some i) := by
    refine List.any_eq_true.mpr ⟨existing, List.mem_of_find?_eq_some hfind, ?_⟩
    have := List.find?_some hfind
    simpa using this
  have hdiff : existing.icon ≠ c.icon := by
    rw [hold, hnew]
    simp [hne]
  have hnotmem : oldF ∉ st.storage.filter (fun g => g ≠ oldF) := by
    intro hmem
    have := (List.mem_filter.mp hmem).2
    simp at this
  refine ⟨categorySuperSave ⟨st.rows, st.storage.filter (fun g => g ≠ oldF)⟩ c, ?_, ?_, ?_, ?_⟩
  · simp only [Category.save, hid, hfind]
    rw [if_pos hdiff, hold]
    rfl
  · -- the old file was filtered out of storage and is not re-added
    simp only [categorySuperSave, storeFile, hnew]
    split
    · exact hnotmem
    · intro hmem
      rcases List.mem_cons.mp hmem with heq | hmem'
      · exact hne heq
      · exact hnotmem hmem'
  · -- the new file is stored
    simp only [categorySuperSave, storeFile, hnew]
    split
    · next hc => exact List.mem_of_elem_eq_true hc
    · exact List.mem_cons_self _ _
  · -- the row now carries the incoming record
    simp only [categorySuperSave, hid]
    rw [if_pos hex]

/-- C7 witness: replacing `old.png` by `new.png` on category 1 removes
`old.png` from storage, stores `new.png`, and updates the row. -/
theorem category_save_replaces_icon_witness :
    ∃ st', Category.save ⟨[⟨some 1, "cat", none, some "old.png"⟩], ["old.png"]⟩
        ⟨some 1, "cat", none, some "new.png"⟩ = .ok st' ∧
      "old.png" ∉ st'.storage ∧ "new.png" ∈ st'.storage ∧
      st'.rows = [⟨some 1, "cat", none, some "old.png"⟩].map
        (fun r => if r.id = some 1 then ⟨some 1, "cat", none, some "new.png"⟩ else r) :=
  category_save_replaces_icon ⟨[⟨some 1, "cat", none, some "old.png"⟩], ["old.png"]⟩
    ⟨some 1, "cat", none, some "new.png"⟩ ⟨some 1, "cat", none, some "old.png"⟩
    1 "old.png" "new.png" rfl rfl rfl rfl (by decide)

/-- C9: the list endpoint is idempotent and leaks no state: dispatching
a request leaves the class-level `queryset` attribute untouched (every
`self.queryset = ...` assignment lands on the per-request instance),
so a second identical request against the unchanged store returns the
identical response. -/
theorem list_request_idempotent (cls : ServerListViewSet) (db : DB) (req : Req) :
    (ServerListViewSet.list cls db req).2 = cls ∧
    (ServerListViewSet.list ((ServerListViewSet.list cls db req).2) db req).1 =
      (ServerListViewSet.list cls db req).1 :=
  ⟨rfl, rfl⟩

/-! ## Pipeline lemmas -/

theorem pyInt_some_ne_empty {s : String} {n : Int} (h : pyInt s = some n) :
    s.isEmpty = false := by
  cases he : s.isEmpty with
  | false => rfl
  | true =>
    exfalso
    rw [(String.isEmpty_iff s).mp he] at h
    exact Option.noConfusion h

theorem pyTruthy_of_pyInt {s : String} {n : Int} (h : pyInt s = some n) :
    pyTruthy (some s) = true := by
  simp [pyTruthy, pyInt_some_ne_empty h]

theorem qtyStep_no_auth (q : Option String) (l : List AnnServer) :
    qtyStep q l ≠ .error .authenticationFailed := by
  unfold qtyStep
  split
  · split
    · intro h
      exact ListError.noConfusion (Except.error.inj h)
    · split
      · intro h
        exact ListError.noConfusion (Except.error.inj h)
      · intro h
        exact Except.noConfusion h
  · intro h
    exact Except.noConfusion h

theorem byServeridStep_no_auth (b : Option String) (sliced : Bool) (l : List AnnServer) :
    byServeridStep b sliced l ≠ .error .authenticationFailed := by
  unfold byServeridStep
  split
  · split
    · intro h
      exact ListError.noConfusion (Except.error.inj h)
    · split
      · intro h
        exact ListError.noConfusion (Except.error.inj h)
      · dsimp only
        split
        · intro h
          exact ListError.noConfusion (Except.error.inj h)
        · intro h
          exact Except.noConfusion h
  · intro h
    exact Except.noConfusion h

theorem qtyStep_ok_mem {q : Option String} {l l' : List AnnServer}
    (h : qtyStep q l = .ok l') : ∀ a ∈ l', a ∈ l := by
  intro a ha
  unfold qtyStep at h
  split at h
  · split at h
    · exact Except.noConfusion h
    · split at h
      · exact Except.noConfusion h
      · injection h with h'
        rw [← h'] at ha
        exact List.take_subset _ _ ha
  · injection h with h'
    rw [← h'] at ha
    exact ha

theorem byServeridStep_ok_mem {b : Option String} {sliced : Bool} {l l' : List AnnServer}
    (h : byServeridStep b sliced l = .ok l') : ∀ a ∈ l', a ∈ l := by
  intro a ha
  unfold byServeridStep at h
  split at h
  · split at h
    · exact Except.noConfusion h
    · split at h
      · exact Except.noConfusion h
      · dsimp only at h
        split at h
        · exact Except.noConfusion h
        · injection h with h'
          rw [← h'] at ha
          exact (List.mem_filter.mp ha).1
  · injection h with h'
    rw [← h'] at ha
    exact ha

theorem mem_numMembersStep {flag bu : Bool} {u : Nat} {l : List Server} {a : AnnServer}
    (ha : a ∈ numMembersStep flag bu u l) :
    a.server ∈ l ∧ a.num_members =
      (if flag then
        some (if bu then a.server.members.count u else a.server.members.length)
      else none) := by
  unfold numMembersStep at ha
  split at ha
  · next hf =>
    obtain ⟨s, hs, rfl⟩ := List.mem_map.mp ha
    exact ⟨hs, by simp [hf]⟩
  · next hf =>
    obtain ⟨s, hs, rfl⟩ := List.mem_map.mp ha
    exact ⟨hs, by simp [hf]⟩

theorem numMembersStep_take (flag bu : Bool) (u : Nat) (l : List Server) (n : Nat) :
    (numMembersStep flag bu u l).take n = numMembersStep flag bu u (l.take n) := by
  unfold numMembersStep
  split <;> rw [List.map_take]

/-- Without the `by_user` filter the annotation ignores the user id. -/
theorem numMembersStep_by_user_false (flag : Bool) (u v : Nat) (l : List Server) :
    numMembersStep flag false u l = numMembersStep flag false v l := rfl

theorem categoryStep_mem {db : DB} {cat : Option String} {qs : List Server} :
    ∀ s ∈ categoryStep db cat qs, s ∈ qs := by
  intro s hs
  unfold categoryStep at hs
  split at hs
  · exact (List.mem_filter.mp hs).1
  · exact hs

theorem byUserStep_mem {b : Bool} {u : Nat} {qs : List Server} :
    ∀ s ∈ byUserStep b u qs, s ∈ qs := by
  intro s hs
  unfold byUserStep at hs
  split at hs
  · exact (List.mem_filter.mp hs).1
  · exact hs

theorem preQtyCollection_mem {db : DB} {cat : Option String} {b : Bool} {u : Nat}
    {qs0 : List Server} :
    ∀ s ∈ preQtyCollection db cat b u qs0, s ∈ qs0 := by
  intro s hs
  exact categoryStep_mem _ (byUserStep_mem _ hs)

/-- The shape of `serverList` once the authentication gate is passed. -/
theorem serverList_gate_false {qs0 : List Server} {db : DB} {req : Req}
    (h : (((req.by_user == some "true") || pyTruthy req.by_serverid) &&
        !req.isAuthenticated) = false) :
    serverList qs0 db req =
      match qtyStep req.qty (numMembersStep (req.with_num_members == some "true")
          (req.by_user == some "true") req.user_id
          (preQtyCollection db req.category (req.by_user == some "true") req.user_id qs0)) with
      | .error e => .error e
      | .ok sliced =>
        match byServeridStep req.by_serverid (pyTruthy req.qty) sliced with
        | .error e => .error e
        | .ok narrowed => .ok (serializeStep (req.with_num_members == some "true") narrowed) := by
  unfold serverList
  dsimp only
  rw [h]
  simp

theorem categoryStep_not_truthy {db : DB} {qs : List Server} (cat : Option String)
    (h : pyTruthy cat = false) : categoryStep db cat qs = qs := by
  unfold categoryStep
  rw [h]
  simp

theorem byUserStep_false {u : Nat} {qs : List Server} : byUserStep false u qs = qs := rfl

theorem qtyStep_not_truthy {l : List AnnServer} (q : Option String)
    (h : pyTruthy q = false) : qtyStep q l = .ok l := by
  unfold qtyStep
  rw [h]
  simp

theorem byServeridStep_not_truthy {sliced : Bool} {l : List AnnServer} (b : Option String)
    (h : pyTruthy b = false) : byServeridStep b sliced l = .ok l := by
  unfold byServeridStep
  rw [h]
  simp

theorem qtyStep_some {qs : String} {q : Int} (hpq : pyInt qs = some q) (hq0 : 0 ≤ q)
    (l : List AnnServer) : qtyStep (some qs) l = .ok (l.take q.toNat) := by
  unfold qtyStep
  rw [pyTruthy_of_pyInt hpq]
  simp only [Option.getD_some, if_true]
  rw [hpq]
  dsimp only
  rw [if_neg (by omega)]

theorem qtyStep_not_numeric {qs : String} {l : List AnnServer}
    (hne : qs.isEmpty = false) (hp : pyInt qs = none) :
    qtyStep (some qs) l = .error (.pythonValueError qs) := by
  unfold qtyStep
  have ht : pyTruthy (some qs) = true := by simp [pyTruthy, hne]
  rw [ht]
  simp only [Option.getD_some, if_true]
  rw [hp]

theorem byServeridStep_sliced {l : List AnnServer} (b : Option String)
    (h : pyTruthy b = true) : byServeridStep b true l = .error .pythonTypeError := by
  unfold byServeridStep
  rw [h]
  simp

theorem byServeridStep_found_none {ss : String} {sid : Int} {l : List AnnServer}
    (hps : pyInt ss = some sid)
    (hempty : ∀ a ∈ l, ¬((a.server.id : Int) = sid)) :
    byServeridStep (some ss) false l =
      .error (.validationError ("Server with id " ++ ss ++ " not found")) := by
  unfold byServeridStep
  rw [pyTruthy_of_pyInt hps]
  simp only [Option.getD_some, if_true, Bool.false_eq_true, if_false]
  rw [hps]
  dsimp only
  rw [if_pos ?_]
  exact List.isEmpty_eq_true.mpr
    (List.filter_eq_nil_iff.mpr (fun a ha => by simpa using hempty a ha))

theorem byServeridStep_not_numeric {ss : String} {l : List AnnServer}
    (hne : ss.isEmpty = false) (hps : pyInt ss = none) :
    byServeridStep (some ss) false l = .error (.validationError "invalid") := by
  unfold byServeridStep
  have ht : pyTruthy (some ss) = true := by simp [pyTruthy, hne]
  rw [ht]
  simp only [Option.getD_some, if_true, Bool.false_eq_true, if_false]
  rw [hps]

/-! ## Claims about the list endpoint -/

/-- C1 (amended): a request with `by_user=true` or a **non-empty**
`by_serverid` fails with `AuthenticationFailed` when the requester is
not authenticated (and, being an error, returns no data); a request
with neither — counting an empty `by_serverid`, which Python
truthiness treats as absent — never raises that error. -/
theorem auth_gate_requires_login (db : DB) (req : Req) :
    ((req.by_user = some "true" ∨ ∃ s, req.by_serverid = some s ∧ s.isEmpty = false) →
      req.isAuthenticated = false →
      serverList db.servers db req = .error .authenticationFailed) ∧
    (req.by_user ≠ some "true" →
      (req.by_serverid = none ∨ req.by_serverid = some "") →
      serverList db.servers db req ≠ .error .authenticationFailed) := by
  constructor
  · rintro (hby | ⟨s, hs, hne⟩) hauth
    · have hcond : (((req.by_user == some "true") || pyTruthy req.by_serverid) &&
          !req.isAuthenticated) = true := by
        simp [hby, hauth]
      unfold serverList
      dsimp only
      rw [hcond]
      simp
    · have hcond : (((req.by_user == some "true") || pyTruthy req.by_serverid) &&
          !req.isAuthenticated) = true := by
        simp [hs, pyTruthy, hne, hauth]
      unfold serverList
      dsimp only
      rw [hcond]
      simp
  · intro h1 h2
    have hb : (req.by_user == some "true") = false := by simp [h1]
    have ht : pyTruthy req.by_serverid = false := by
      rcases h2 with h | h <;> rw [h] <;> decide
    have hgate : (((req.by_user == some "true") || pyTruthy req.by_serverid) &&
        !req.isAuthenticated) = false := by
      simp [hb, ht]
    rw [serverList_gate_false hgate]
    split
    · next e heq =>
      intro hc
      injection hc with h'
      rw [h'] at heq
      exact qtyStep_no_auth _ _ heq
    · split
      · next e heq =>
        intro hc
        injection hc with h'
        rw [h'] at heq
        exact byServeridStep_no_auth _ _ _ heq
      · intro hc
        exact Except.noConfusion hc

/-- C1 witness: `by_user=true` without authentication is rejected. -/
theorem auth_gate_requires_login_witness :
    serverList dbA.servers dbA { req0 with by_user := some "true" } =
      .error .authenticationFailed :=
  (auth_gate_requires_login dbA { req0 with by_user := some "true" }).1 (Or.inl rfl) rfl

/-- C1 counterexample: with `by_serverid` **present but empty** and no
authentication, the code raises no authentication error and returns the
full data set — the claim's "by_serverid is present" case fails on the
empty string. -/
theorem auth_gate_empty_serverid_counter :
    serverList dbA.servers dbA { req0 with by_serverid := some "" } =
      .ok [⟨1, "s1", none⟩, ⟨2, "s2", none⟩] ∧
    serverList dbA.servers dbA { req0 with by_serverid := some "" } ≠
      .error .authenticationFailed ∧
    ({ req0 with by_serverid := some "" } : Req).by_serverid = some "" ∧
    ({ req0 with by_serverid := some "" } : Req).isAuthenticated = false := by
  decide

/-- C2 counterexample: `qty=1&by_serverid=2` (authenticated) against
the two-server store — server 2 exists and sits outside the first
`qty` entries, yet the outcome is Django's uncaught filter-after-slice
`TypeError`, not the not-found validation error the claim asserts. -/
theorem qty_serverid_typeerror_counter :
    serverList dbA.servers dbA
        { req0 with qty := some "1", by_serverid := some "2", isAuthenticated := true } =
      .error .pythonTypeError ∧
    ∀ d, serverList dbA.servers dbA
        { req0 with qty := some "1", by_serverid := some "2", isAuthenticated := true } ≠
      .error (.validationError d) := by
  have h : serverList dbA.servers dbA
      { req0 with qty := some "1", by_serverid := some "2", isAuthenticated := true } =
      .error .pythonTypeError := by decide
  refine ⟨h, fun d hc => ?_⟩
  rw [h] at hc
  exact ListError.noConfusion (Except.error.inj hc)

/-- C2 (amended): the `qty` slice runs before the `by_serverid`
narrowing and leaves a sliced queryset, so when both are given —
even when the requested server exists in the running collection but
outside its first `qty` entries — the `filter(id=...)` call raises
Django's uncaught "Cannot filter a query once a slice has been taken"
`TypeError`: the existing record is never returned, and no not-found
validation error is produced. -/
theorem qty_truncation_precedes_serverid (db : DB) (req : Req) (qs ss : String)
    (q sid : Int)
    (hauth : req.isAuthenticated = true)
    (hq : req.qty = some qs) (hpq : pyInt qs = some q) (hq0 : 0 ≤ q)
    (hs : req.by_serverid = some ss) (hps : pyInt ss = some sid)
    (hexists : ∃ srv ∈ preQtyCollection db req.category (req.by_user == some "true")
        req.user_id db.servers, (srv.id : Int) = sid)
    (houtside : ∀ srv ∈ (preQtyCollection db req.category (req.by_user == some "true")
        req.user_id db.servers).take q.toNat,
      ¬((srv.id : Int) = sid)) :
    serverList db.servers db req = .error .pythonTypeError := by
  have hgate : (((req.by_user == some "true") || pyTruthy req.by_serverid) &&
      !req.isAuthenticated) = false := by
    simp [hauth]
  rw [serverList_gate_false hgate, hq, hs, qtyStep_some hpq hq0]
  dsimp only
  rw [pyTruthy_of_pyInt hpq, byServeridStep_sliced (some ss) (pyTruthy_of_pyInt hps)]

/-- C2 witness: with servers 1 and 2 in the store, `qty=1` slices the
queryset, so `by_serverid=2` — a server that exists outside the window
— hits the uncaught `TypeError`. -/
theorem qty_truncation_precedes_serverid_witness :
    serverList dbA.servers dbA
        { req0 with qty := some "1", by_serverid := some "2", isAuthenticated := true } =
      .error .pythonTypeError :=
  qty_truncation_precedes_serverid dbA
    { req0 with qty := some "1", by_serverid := some "2", isAuthenticated := true }
    "1" "2" 1 2 rfl rfl (by decide) (by decide) rfl (by decide)
    ⟨⟨2, "s2", 11, 2, none, []⟩, by decide, by decide⟩ (by decide)

/-- C3 (amended): for an authenticated request whose `by_serverid` is
given **non-empty**, and whose `qty` is absent or empty (so no slice
was taken and no `qty` parse error fired first): a numeric id matching
no server of the running collection raises a validation error whose
message carries the requested id, and a non-numeric id raises a
validation error with message `"invalid"`. -/
theorem serverid_validation_errors (db : DB) (req : Req) (ss : String)
    (hauth : req.isAuthenticated = true)
    (hs : req.by_serverid = some ss) (hne : ss.isEmpty = false)
    (hqty : pyTruthy req.qty = false) :
    (∀ sid : Int, pyInt ss = some sid →
      (∀ srv ∈ preQtyCollection db req.category (req.by_user == some "true")
          req.user_id db.servers, ¬((srv.id : Int) = sid)) →
      serverList db.servers db req =
        .error (.validationError ("Server with id " ++ ss ++ " not found"))) ∧
    (pyInt ss = none →
      serverList db.servers db req = .error (.validationError "invalid")) := by
  have hgate : (((req.by_user == some "true") || pyTruthy req.by_serverid) &&
      !req.isAuthenticated) = false := by
    simp [hauth]
  constructor
  · intro sid hps hnomatch
    rw [serverList_gate_false hgate, qtyStep_not_truthy req.qty hqty]
    dsimp only
    rw [hqty, hs, byServeridStep_found_none hps ?_]
    intro a ha
    exact hnomatch a.server (mem_numMembersStep ha).1
  · intro hps
    rw [serverList_gate_false hgate, qtyStep_not_truthy req.qty hqty]
    dsimp only
    rw [hqty, hs, byServeridStep_not_numeric hne hps]

/-- C3 witness: authenticated `by_serverid=abc` (no `qty`) yields the
validation error `"invalid"`. -/
theorem serverid_validation_errors_witness :
    serverList dbA.servers dbA { req0 with by_serverid := some "abc", isAuthenticated := true } =
      .error (.validationError "invalid") :=
  (serverid_validation_errors dbA
    { req0 with by_serverid := some "abc", isAuthenticated := true } "abc"
    rfl rfl rfl rfl).2 (by decide)

/-- C3 counterexample: an authenticated request whose `by_serverid` is
given as the empty string — which is non-numeric — raises no validation
error at all: the whole `by_serverid` branch is skipped and the full
collection is returned. -/
theorem serverid_empty_skips_validation_counter :
    serverList dbA.servers dbA { req0 with by_serverid := some "", isAuthenticated := true } =
      .ok [⟨1, "s1", none⟩, ⟨2, "s2", none⟩] ∧
    serverList dbA.servers dbA { req0 with by_serverid := some "", isAuthenticated := true } ≠
      .error (.validationError "invalid") ∧
    ({ req0 with by_serverid := some "", isAuthenticated := true } : Req).by_serverid = some "" ∧
    pyInt "" = none := by
  decide

/-- C4: a non-empty, non-numeric `qty` aborts `list` with the raw
Python `ValueError` — `int(qty)` sits outside every `try` — and in
particular never surfaces as a `ValidationError`, unlike the caught
`by_serverid` parse failure. -/
theorem qty_parse_error_unhandled (db : DB) (req : Req) (qs : String)
    (hauth : req.isAuthenticated = true)
    (hq : req.qty = some qs) (hne : qs.isEmpty = false) (hp : pyInt qs = none) :
    serverList db.servers db req = .error (.pythonValueError qs) ∧
    ∀ d, serverList db.servers db req ≠ .error (.validationError d) := by
  have hgate : (((req.by_user == some "true") || pyTruthy req.by_serverid) &&
      !req.isAuthenticated) = false := by
    simp [hauth]
  have hmain : serverList db.servers db req = .error (.pythonValueError qs) := by
    rw [serverList_gate_false hgate, hq, qtyStep_not_numeric hne hp]
  refine ⟨hmain, fun d hc => ?_⟩
  rw [hmain] at hc
  exact ListError.noConfusion (Except.error.inj hc)

/-- C4 witness: authenticated `qty=xyz` propagates the unhandled
`ValueError`. -/
theorem qty_parse_error_unhandled_witness :
    serverList dbA.servers dbA { req0 with qty := some "xyz", isAuthenticated := true } =
      .error (.pythonValueError "xyz") ∧
    ∀ d, serverList dbA.servers dbA { req0 with qty := some "xyz", isAuthenticated := true } ≠
      .error (.validationError d) :=
  qty_parse_error_unhandled dbA { req0 with qty := some "xyz", isAuthenticated := true }
    "xyz" rfl rfl rfl (by decide)

/-- A one-server store whose server has two members (10 and 11): the
input on which the `by_user` filter distorts the `num_members`
annotation. -/
def dbB : DB :=
  { categories := [⟨some 1, "A", none, none⟩]
    servers := [⟨1, "s1", 10, 1, none, [10, 11]⟩] }

/-- An authenticated request combining `by_user=true` with
`with_num_members=true`, issued by user 10. -/
def reqB : Req :=
  { req0 with
    by_user := some "true"
    with_num_members := some "true"
    isAuthenticated := true }

/-- C8 counterexample: on `dbB` (one server, two members), the request
`by_user=true&with_num_members=true` returns the server annotated with
`num_members = 1` — the membership rows matching user 10 after
`filter(members=user_id)`, whose join `Count("members")` reuses — while
the server's member count is 2.  The response field does not equal the
count of the server's members, refuting the claim. -/
theorem num_members_join_reuse_counter :
    serverList dbB.servers dbB reqB = .ok [⟨1, "s1", some 1⟩] ∧
    reqB.with_num_members = some "true" ∧
    ∀ s ∈ dbB.servers, ¬((1 : Nat) = s.members.length) := by
  decide

/-- C8 (amended): in a successful listing a server carries
`num_members` exactly when the request said `with_num_members=true`,
and for any other value of the parameter the field is absent from
every serialized row; the value is the server's member count when
`by_user` is not `"true"`, but when `by_user=true` the
filter-before-annotate join reuse makes it the number of membership
rows matching the requesting user instead of the full member count. -/
theorem num_members_iff_requested (db : DB) (req : Req) (out : List ServerOut)
    (h : serverList db.servers db req = .ok out) :
    ∀ o ∈ out,
      (req.with_num_members = some "true" →
        ∃ s ∈ db.servers, o.id = s.id ∧ o.name = s.name ∧
          o.num_members = some (if (req.by_user == some "true") = true then
            s.members.count req.user_id else s.members.length)) ∧
      (req.with_num_members ≠ some "true" → o.num_members = none) := by
  intro o ho
  by_cases hgate : (((req.by_user == some "true") || pyTruthy req.by_serverid) &&
      !req.isAuthenticated) = true
  · unfold serverList at h
    dsimp only at h
    rw [hgate] at h
    simp at h
  · have hg : (((req.by_user == some "true") || pyTruthy req.by_serverid) &&
        !req.isAuthenticated) = false := by
      simpa using hgate
    rw [serverList_gate_false hg] at h
    split at h
    · exact Except.noConfusion h
    · next sliced hqty =>
      split at h
      · exact Except.noConfusion h
      · next narrowed hserverid =>
        injection h with h'
        rw [← h'] at ho
        obtain ⟨a, ha, rfl⟩ := List.mem_map.mp ho
        have hmem : a ∈ numMembersStep (req.with_num_members == some "true")
            (req.by_user == some "true") req.user_id
            (preQtyCollection db req.category (req.by_user == some "true")
              req.user_id db.servers) :=
          qtyStep_ok_mem hqty a (byServeridStep_ok_mem hserverid a ha)
        obtain ⟨hsrv, hnm⟩ := mem_numMembersStep hmem
        have hdb : a.server ∈ db.servers := preQtyCollection_mem _ hsrv
        constructor
        · intro htrue
          have hwnm : (req.with_num_members == some "true") = true := by simp [htrue]
          rw [hwnm] at hnm
          refine ⟨a.server, hdb, rfl, rfl, ?_⟩
          simp only [hwnm, if_true]
          simpa using hnm
        · intro hfalse
          have hwnm : (req.with_num_members == some "true") = false := by simp [hfalse]
          simp only [hwnm]
          simp

/-- C8 witness: on `dbB` with `by_user=true&with_num_members=true`, the
returned row's `num_members` is the count of membership rows matching
user 10 — the join-reuse value. -/
theorem num_members_iff_requested_witness :
    ∃ s ∈ dbB.servers, (⟨1, "s1", some 1⟩ : ServerOut).id = s.id ∧
      (⟨1, "s1", some 1⟩ : ServerOut).name = s.name ∧
      (⟨1, "s1", some 1⟩ : ServerOut).num_members = some (s.members.count 10) :=
  (num_members_iff_requested dbB reqB [⟨1, "s1", some 1⟩] (by decide)
    ⟨1, "s1", some 1⟩ (by decide)).1 rfl

/-- The response to a parameterless listing: every server of the store,
annotated (or not) according to the `with_num_members` flag; with no
`by_user` filter the annotation is the full member count, so no user
id is involved. -/
def fullListing (db : DB) (wnm : Bool) : List ServerOut :=
  serializeStep wnm (numMembersStep wnm false 0 db.servers)

/-- C10: a `category`, `qty` or `by_serverid` parameter that is present
but empty is skipped exactly as if it were absent — Python string
truthiness — and in particular an empty `by_serverid` alone (with
`by_user` not `"true"`) triggers neither the authentication gate nor
the not-found check, returning the full unfiltered collection even
unauthenticated. -/
theorem empty_params_skipped (db : DB) (req : Req) :
    (req.category = some "" →
      serverList db.servers db req = serverList db.servers db { req with category := none }) ∧
    (req.qty = some "" →
      serverList db.servers db req = serverList db.servers db { req with qty := none }) ∧
    (req.by_serverid = some "" →
      serverList db.servers db req = serverList db.servers db { req with by_serverid := none }) ∧
    (req.by_serverid = some "" → req.by_user ≠ some "true" →
      req.category = none → req.qty = none →
      serverList db.servers db req =
        .ok (fullListing db (req.with_num_members == some "true"))) := by
  refine ⟨?_, ?_, ?_, ?_⟩
  · intro hc
    unfold serverList preQtyCollection
    dsimp only
    rw [hc]
    rw [categoryStep_not_truthy (some "") (by decide),
      categoryStep_not_truthy none (by decide)]
  · intro hq
    unfold serverList
    dsimp only
    rw [hq]
    simp only [show pyTruthy (some "") = false from by decide,
      show pyTruthy (none : Option String) = false from rfl,
      qtyStep_not_truthy (some "") (by decide),
      qtyStep_not_truthy (none : Option String) (by decide)]
  · intro hs
    unfold serverList
    dsimp only
    rw [hs]
    simp only [show pyTruthy (some "") = false from by decide,
      show pyTruthy (none : Option String) = false from rfl,
      byServeridStep_not_truthy (some "") (by decide),
      byServeridStep_not_truthy (none : Option String) (by decide)]
  · intro hs hbu hcat hqty
    have hb : (req.by_user == some "true") = false := by simp [hbu]
    have hgate : (((req.by_user == some "true") || pyTruthy req.by_serverid) &&
        !req.isAuthenticated) = false := by
      rw [hs, hb, show pyTruthy (some "") = false from by decide]
      simp
    rw [serverList_gate_false hgate, hqty, qtyStep_not_truthy none (by decide)]
    dsimp only
    rw [hs, byServeridStep_not_truthy (some "") (by decide)]
    dsimp only
    unfold fullListing preQtyCollection
    rw [hcat, hb, categoryStep_not_truthy none (by decide), byUserStep_false,
      numMembersStep_by_user_false (req.with_num_members == some "true") req.user_id 0]

/-- C10 witness: an unauthenticated request whose only parameter is
`by_serverid=` (empty) returns the full two-server listing. -/
theorem empty_params_skipped_witness :
    serverList dbA.servers dbA { req0 with by_serverid := some "" } =
      .ok (fullListing dbA false) :=
  (empty_params_skipped dbA { req0 with by_serverid := some "" }).2.2.2
    rfl (by decide) rfl rfl

end DjChat
